import Mathlib

/-!
Shallow embedding of the hotel reservation system
(`src/hotel.py`, `src/customer.py`, `src/reservation.py`).

The Python code persists each collection as a JSON object keyed by id.
Every operation is a whole-collection read-modify-write, so we model a
collection as an association list `List (String × α)` with Python-dict
semantics (`dictGet` for `d[k]` / `k in d`, `dictSet` for `d[k] = v`:
replace in place when the key is present, append otherwise) and each
operation as a pure function from the collection(s) to the returned
value paired with the updated collection(s).
-/

/-- `d[k]` lookup / `k in d` membership on a Python-style dict. -/
def dictGet {α : Type} (m : List (String × α)) (k : String) : Option α :=
  match m with
  | [] => none
  | (k', v) :: rest => if k' = k then some v else dictGet rest k

/-- `k in d` membership test. -/
def dictHas {α : Type} (m : List (String × α)) (k : String) : Bool :=
  (dictGet m k).isSome

/-- `d[k] = v` assignment: replace the value in place when the key is
present, append the pair otherwise (Python dict insertion order). -/
def dictSet {α : Type} (m : List (String × α)) (k : String) (v : α) :
    List (String × α) :=
  match m with
  | [] => [(k, v)]
  | (k', v') :: rest =>
      if k' = k then (k, v) :: rest else (k', v') :: dictSet rest k v

/-- A persisted hotel record (`Hotel.to_dict` in `hotel.py`).  The
`location` field models the extra `"location"` key that
`Hotel.modify_hotel` may add to the stored dictionary; it is absent
(`none`) on every record produced by `Hotel.__init__` / `to_dict`. -/
structure HotelRec where
  hotel_id : String
  name : String
  city : String
  total_rooms : Int
  available_rooms : Int
  reservations : List String
  location : Option String := none
  deriving Repr, DecidableEq

/-- The hotels collection (`data/hotels.json`). -/
abbrev Hotels := List (String × HotelRec)

/-- `Hotel.__init__`: `available_rooms` starts equal to `total_rooms`
and the reservation list starts empty. -/
def Hotel.init (hotel_id name city : String) (total_rooms : Int) : HotelRec :=
  { hotel_id := hotel_id
    name := name
    city := city
    total_rooms := total_rooms
    available_rooms := total_rooms
    reservations := [] }

/-- `Hotel.create_hotel`: fails (returns `none`) when the id already
exists, otherwise stores the freshly initialised record. -/
def create_hotel (hotels : Hotels) (hotel_id name city : String)
    (total_rooms : Int) : Option HotelRec × Hotels :=
  if dictHas hotels hotel_id then (none, hotels)
  else
    let h := Hotel.init hotel_id name city total_rooms
    (some h, dictSet hotels hotel_id h)

/-- The three failure messages `Hotel.reserve_room` can print before
returning `False`, plus success (`True`). -/
inductive ReserveOutcome
  | hotelNotFound
  | noRooms
  | duplicateId
  | success
  deriving Repr, DecidableEq

/-- `Hotel.reserve_room`: requires the hotel to exist, to have
`available_rooms > 0`, and the reservation id to be new for this hotel;
then decrements availability and appends the id. -/
def reserve_room (hotels : Hotels) (hotel_id reservation_id : String) :
    ReserveOutcome × Hotels :=
  match dictGet hotels hotel_id with
  | none => (.hotelNotFound, hotels)
  | some hotel =>
      if hotel.available_rooms ≤ 0 then (.noRooms, hotels)
      else if reservation_id ∈ hotel.reservations then (.duplicateId, hotels)
      else
        let hotel' := { hotel with
          available_rooms := hotel.available_rooms - 1
          reservations := hotel.reservations ++ [reservation_id] }
        (.success, dictSet hotels hotel_id hotel')

/-- `Hotel.cancel_room_reservation`: requires the hotel to exist and the
reservation id to be in its list; removes the first occurrence of the id
(`list.remove`) and increments availability, clamped at `total_rooms`. -/
def cancel_room_reservation (hotels : Hotels)
    (hotel_id reservation_id : String) : Bool × Hotels :=
  match dictGet hotels hotel_id with
  | none => (false, hotels)
  | some hotel =>
      if reservation_id ∈ hotel.reservations then
        let hotel' := { hotel with
          reservations := hotel.reservations.erase reservation_id
          available_rooms :=
            min (hotel.available_rooms + 1) hotel.total_rooms }
        (true, dictSet hotels hotel_id hotel')
      else (false, hotels)

/-- `Hotel.modify_hotel`: partial update.  A text argument is applied
only when truthy (`if name:` — so `None` and `""` are both skipped); the
`location` argument is written to the record's `location` key, and a
`total_rooms` argument (checked with `is not None`) updates the total
and sets `available_rooms = max(0, available_rooms + diff)`. -/
def modifyText (h0 : HotelRec) (name location : Option String) : HotelRec :=
  let h1 := match name with
    | some s => if s ≠ "" then { h0 with name := s } else h0
    | none => h0
  match location with
  | some s => if s ≠ "" then { h1 with location := some s } else h1
  | none => h1

/-- `Hotel.modify_hotel`, continued: the record after the text updates
(`modifyText`) gets its capacity adjusted when a `total_rooms` argument
is supplied (`is not None`), and the whole collection is saved. -/
def modify_hotel (hotels : Hotels) (hotel_id : String)
    (name location : Option String) (total_rooms : Option Int) :
    Bool × Hotels :=
  match dictGet hotels hotel_id with
  | none => (false, hotels)
  | some h0 =>
      let h2 := modifyText h0 name location
      let h3 := match total_rooms with
        | some t =>
            { h2 with
              total_rooms := t
              available_rooms :=
                max 0 (h2.available_rooms + (t - h2.total_rooms)) }
        | none => h2
      (true, dictSet hotels hotel_id h3)

/-- A persisted customer record (`Customer.to_dict` in `customer.py`). -/
structure CustomerRec where
  customer_id : String
  name : String
  email : String
  phone : String
  deriving Repr, DecidableEq

/-- The customers collection (`data/customers.json`). -/
abbrev Customers := List (String × CustomerRec)

/-- `Customer.modify_customer`: partial update; a field is applied only
when truthy (`if name:`), so `None` and `""` are both skipped. -/
def modify_customer (customers : Customers) (customer_id : String)
    (name email phone : Option String) : Bool × Customers :=
  match dictGet customers customer_id with
  | none => (false, customers)
  | some c0 =>
      let c1 := match name with
        | some s => if s ≠ "" then { c0 with name := s } else c0
        | none => c0
      let c2 := match email with
        | some s => if s ≠ "" then { c1 with email := s } else c1
        | none => c1
      let c3 := match phone with
        | some s => if s ≠ "" then { c2 with phone := s } else c2
        | none => c2
      (true, dictSet customers customer_id c3)

/-- Modelled from the spec: `Reservation.create_reservation`
(reservation.py, line 159) calls `Customer.exists(customer_id)`, but no
definition of `exists` appears in the sources under src/; spec §6
specifies that the Customer Registry exposes
`exists(customer_id) → bool`, an existence check of `customer_id`
against the customer collection. -/
def Customer.exists (customers : Customers) (customer_id : String) : Bool :=
  dictHas customers customer_id

/-- Reservation status (`ACTIVE_STATUS` / `CANCELED_STATUS` in
`constants.py`). -/
inductive RStatus
  | active
  | canceled
  deriving Repr, DecidableEq

/-- A persisted reservation record (`Reservation.to_dict`). -/
structure ReservationRec where
  reservation_id : String
  customer_id : String
  hotel_id : String
  check_in : String
  check_out : String
  status : RStatus
  deriving Repr, DecidableEq

/-- The reservations collection (`data/reservations.json`). -/
abbrev Reservations := List (String × ReservationRec)

/-- The three JSON stores together: `create_reservation` and
`cancel_reservation` read the customer store and read-modify-write the
hotel and reservation stores. -/
structure SysState where
  customers : Customers
  hotels : Hotels
  reservations : Reservations
  deriving Repr, DecidableEq

/-- `Reservation.create_reservation`: fails on a duplicate reservation
id, then on a missing customer, then propagates `reserve_room` failure;
on success the dates default independently to today's date
(`str(date.today())`, passed here as `today`) and the record is stored
with status `ACTIVE`. -/
def create_reservation (s : SysState)
    (reservation_id customer_id hotel_id : String)
    (check_in check_out : Option String) (today : String) :
    Option ReservationRec × SysState :=
  if dictHas s.reservations reservation_id then (none, s)
  else if ¬ Customer.exists s.customers customer_id then (none, s)
  else
    let rr := reserve_room s.hotels hotel_id reservation_id
    if rr.1 ≠ .success then (none, { s with hotels := rr.2 })
    else
      let r : ReservationRec :=
        { reservation_id := reservation_id
          customer_id := customer_id
          hotel_id := hotel_id
          check_in := check_in.getD today
          check_out := check_out.getD today
          status := .active }
      (some r,
        { s with
          hotels := rr.2
          reservations := dictSet s.reservations reservation_id r })

/-- `Reservation.cancel_reservation`: fails when the id is absent or
the status is already `CANCELED`; otherwise calls
`cancel_room_reservation` (its result is ignored), flips the status to
`CANCELED` and persists. -/
def cancel_reservation (s : SysState) (reservation_id : String) :
    Bool × SysState :=
  match dictGet s.reservations reservation_id with
  | none => (false, s)
  | some r =>
      if r.status = .canceled then (false, s)
      else
        let cr := cancel_room_reservation s.hotels r.hotel_id reservation_id
        (true,
          { s with
            hotels := cr.2
            reservations :=
              dictSet s.reservations reservation_id
                { r with status := .canceled } })

/-! ### Dictionary lemmas -/

theorem dictGet_dictSet {α : Type} (m : List (String × α)) (k k' : String)
    (v : α) :
    dictGet (dictSet m k v) k' = if k = k' then some v else dictGet m k' := by
  induction m with
  | nil => by_cases h : k = k' <;> simp [dictSet, dictGet, h]
  | cons kv rest ih =>
      obtain ⟨a, b⟩ := kv
      by_cases hak : a = k
      · subst hak
        by_cases hkk : a = k' <;> simp [dictSet, dictGet, hkk]
      · by_cases hak' : a = k'
        · subst hak'
          simp [dictSet, dictGet, hak]
          rw [if_neg (fun h => hak h.symm)]
        · simp [dictSet, dictGet, hak, hak', ih]

theorem dictSet_self {α : Type} (m : List (String × α)) (k : String) (v : α)
    (h : dictGet m k = some v) : dictSet m k v = m := by
  induction m with
  | nil => simp [dictGet] at h
  | cons kv rest ih =>
      obtain ⟨a, b⟩ := kv
      by_cases hak : a = k
      · subst hak
        simp [dictGet] at h
        simp [dictSet, h]
      · simp [dictGet, hak] at h
        simp [dictSet, hak, ih h]

/-! ### Hotel-level invariant and operation sequences -/

/-- The hotel room-accounting invariant `0 ≤ available_rooms ≤
total_rooms` (spec §3). -/
def hotelInv (h : HotelRec) : Prop :=
  0 ≤ h.available_rooms ∧ h.available_rooms ≤ h.total_rooms

/-- One call into the hotel store: `reserve_room`,
`cancel_room_reservation` (releaseRoom) or `modify_hotel`. -/
inductive HotelOp
  | reserve (hotel_id reservation_id : String)
  | release (hotel_id reservation_id : String)
  | modify (hotel_id : String) (name location : Option String)
      (total_rooms : Option Int)

/-- The hotel store after one call (the returned value is dropped). -/
def applyHotelOp (hotels : Hotels) : HotelOp → Hotels
  | .reserve hid rid => (reserve_room hotels hid rid).2
  | .release hid rid => (cancel_room_reservation hotels hid rid).2
  | .modify hid nm loc tr => (modify_hotel hotels hid nm loc tr).2

/-- The hotel store after a sequence of calls. -/
def runOps (hotels : Hotels) (ops : List HotelOp) : Hotels :=
  ops.foldl applyHotelOp hotels

/-- A call whose `total_rooms` argument, when supplied, is ≥ 0. -/
def goodOp : HotelOp → Prop
  | .modify _ _ _ (some t) => 0 ≤ t
  | _ => True

/-- Every record in the hotel store satisfies `hotelInv`. -/
def invAll (hotels : Hotels) : Prop :=
  ∀ k h, dictGet hotels k = some h → hotelInv h

theorem modifyText_rooms (h0 : HotelRec) (nm loc : Option String) :
    (modifyText h0 nm loc).available_rooms = h0.available_rooms ∧
    (modifyText h0 nm loc).total_rooms = h0.total_rooms ∧
    (modifyText h0 nm loc).reservations = h0.reservations ∧
    (modifyText h0 nm loc).city = h0.city := by
  cases nm <;> cases loc <;> simp only [modifyText] <;> (try split_ifs) <;>
    simp

theorem applyHotelOp_invAll (hotels : Hotels) (op : HotelOp)
    (hgood : goodOp op) (hinv : invAll hotels) :
    invAll (applyHotelOp hotels op) := by
  cases op with
  | reserve hid rid =>
      intro k h hk
      simp only [applyHotelOp, reserve_room] at hk
      split at hk
      · exact hinv k h hk
      · rename_i hotel hg
        split at hk
        · exact hinv k h hk
        · split at hk
          · exact hinv k h hk
          · rename_i hav hdup
            simp only [dictGet_dictSet] at hk
            split at hk
            · injection hk with hk'
              subst hk'
              obtain ⟨h1, h2⟩ := hinv hid hotel hg
              unfold hotelInv
              dsimp
              omega
            · exact hinv k h hk
  | release hid rid =>
      intro k h hk
      simp only [applyHotelOp, cancel_room_reservation] at hk
      split at hk
      · exact hinv k h hk
      · rename_i hotel hg
        split at hk
        · simp only [dictGet_dictSet] at hk
          split at hk
          · injection hk with hk'
            subst hk'
            obtain ⟨h1, h2⟩ := hinv hid hotel hg
            unfold hotelInv
            dsimp
            omega
          · exact hinv k h hk
        · exact hinv k h hk
  | modify hid nm loc tr =>
      intro k h hk
      simp only [applyHotelOp, modify_hotel] at hk
      split at hk
      · exact hinv k h hk
      · rename_i h0 hg
        simp only [dictGet_dictSet] at hk
        split at hk
        · injection hk with hk'
          subst hk'
          obtain ⟨e1, e2, _, _⟩ := modifyText_rooms h0 nm loc
          obtain ⟨h1, h2⟩ := hinv hid h0 hg
          cases tr with
          | none =>
              unfold hotelInv
              rw [e1, e2]
              exact ⟨h1, h2⟩
          | some t =>
              have ht : (0 : Int) ≤ t := hgood
              unfold hotelInv
              dsimp
              rw [e1, e2]
              omega
        · exact hinv k h hk

/-- Invariant preservation along any sequence of good calls. -/
theorem runOps_invAll (ops : List HotelOp) (hotels : Hotels)
    (hgood : ∀ op ∈ ops, goodOp op) (hinv : invAll hotels) :
    invAll (runOps hotels ops) := by
  induction ops generalizing hotels with
  | nil => exact hinv
  | cons op ops ih =>
      exact ih (applyHotelOp hotels op)
        (fun o ho => hgood o (List.mem_cons_of_mem op ho))
        (applyHotelOp_invAll hotels op (hgood op (List.mem_cons_self op ops))
          hinv)

/-- C1: for every hotel record with `0 ≤ available_rooms ≤ total_rooms`
(and hence `total_rooms ≥ 0`), after any sequence of `reserve_room`,
`cancel_room_reservation` and `modify_hotel` calls whose `total_rooms`
arguments are ≥ 0, every hotel record still satisfies
`0 ≤ available_rooms ≤ total_rooms`. -/
theorem C1_hotel_invariant_preserved (hotels : Hotels) (ops : List HotelOp)
    (hgood : ∀ op ∈ ops, goodOp op)
    (hinv : ∀ k h, dictGet hotels k = some h → hotelInv h) :
    ∀ k h, dictGet (runOps hotels ops) k = some h → hotelInv h :=
  runOps_invAll ops hotels hgood hinv

/-- A concrete store for the C1 witness: one hotel with one room taken. -/
def c1Hotels : Hotels :=
  [("H1", { hotel_id := "H1", name := "N", city := "C", total_rooms := 2,
            available_rooms := 1, reservations := ["R0"] })]

/-- A concrete call sequence for the C1 witness: reserve a room, shrink
the hotel to zero rooms, release the first reservation. -/
def c1Ops : List HotelOp :=
  [.reserve "H1" "R1", .modify "H1" none none (some 0), .release "H1" "R0"]

/-- The record stored under "H1" after running `c1Ops` on `c1Hotels`. -/
def c1Final : HotelRec :=
  { hotel_id := "H1", name := "N", city := "C", total_rooms := 0,
    available_rooms := 0, reservations := ["R1"] }

theorem c1Ops_good : ∀ op ∈ c1Ops, goodOp op := by
  intro op hop
  simp only [c1Ops, List.mem_cons, List.not_mem_nil, or_false] at hop
  rcases hop with rfl | rfl | rfl
  · trivial
  · show (0 : Int) ≤ 0
    exact Int.le_refl 0
  · trivial

theorem c1Hotels_inv : ∀ k h, dictGet c1Hotels k = some h → hotelInv h := by
  intro k h hk
  simp only [c1Hotels, dictGet] at hk
  split at hk
  · injection hk with hk'
    subst hk'
    unfold hotelInv
    exact ⟨by decide, by decide⟩
  · exact Option.noConfusion hk

theorem C1_hotel_invariant_preserved_witness : hotelInv c1Final :=
  C1_hotel_invariant_preserved c1Hotels c1Ops c1Ops_good c1Hotels_inv "H1"
    c1Final (by decide)

/-- C4: `reserve_room` succeeds iff the hotel exists, has
`available_rooms > 0` and the reservation id is new; on success it
decrements availability and appends the id; on failure the store is
unchanged and the outcome names the failed precondition. -/
theorem C4_reserve_room_contract (hotels : Hotels) (hid rid : String) :
    ((reserve_room hotels hid rid).1 = .success ↔
      ∃ h, dictGet hotels hid = some h ∧ 0 < h.available_rooms ∧
        rid ∉ h.reservations) ∧
    (∀ h, dictGet hotels hid = some h →
      (reserve_room hotels hid rid).1 = .success →
      (reserve_room hotels hid rid).2 =
        dictSet hotels hid
          { h with
            available_rooms := h.available_rooms - 1
            reservations := h.reservations ++ [rid] }) ∧
    ((reserve_room hotels hid rid).1 ≠ .success →
      (reserve_room hotels hid rid).2 = hotels) ∧
    ((reserve_room hotels hid rid).1 = .hotelNotFound ↔
      dictGet hotels hid = none) ∧
    ((reserve_room hotels hid rid).1 = .noRooms ↔
      ∃ h, dictGet hotels hid = some h ∧ h.available_rooms ≤ 0) ∧
    ((reserve_room hotels hid rid).1 = .duplicateId ↔
      ∃ h, dictGet hotels hid = some h ∧ 0 < h.available_rooms ∧
        rid ∈ h.reservations) := by
  cases hg : dictGet hotels hid with
  | none =>
      refine ⟨?_, ?_, ?_, ?_, ?_, ?_⟩ <;> simp [reserve_room, hg]
  | some h =>
      by_cases hav : h.available_rooms ≤ 0
      · refine ⟨?_, ?_, ?_, ?_, ?_, ?_⟩ <;>
          simp [reserve_room, hg, hav]
      · by_cases hdup : rid ∈ h.reservations
        · refine ⟨?_, ?_, ?_, ?_, ?_, ?_⟩ <;>
            (simp [reserve_room, hg, hav, hdup]; try omega)
        · refine ⟨?_, ?_, ?_, ?_, ?_, ?_⟩ <;>
            (simp [reserve_room, hg, hav, hdup]; try omega)

/-- A concrete store for the C4 witness. -/
def c4Hotels : Hotels :=
  [("H1", { hotel_id := "H1", name := "N", city := "C", total_rooms := 3,
            available_rooms := 2, reservations := ["RA"] })]

theorem C4_reserve_room_contract_witness :
    (reserve_room c4Hotels "H1" "RB").1 = ReserveOutcome.success :=
  (C4_reserve_room_contract c4Hotels "H1" "RB").1.mpr
    ⟨{ hotel_id := "H1", name := "N", city := "C", total_rooms := 3,
       available_rooms := 2, reservations := ["RA"] },
     by decide, by decide, by decide⟩

/-- C3: for a hotel with `available_rooms ≤ total_rooms` and a
reservation id not yet in its list, a successful `reserve_room`
followed immediately by `cancel_room_reservation` for the same
pair restores the stored record (in particular `available_rooms`
and `reservations`) to its pre-reserve value. -/
theorem C3_reserve_release_round_trip (hotels : Hotels) (hid rid : String)
    (h : HotelRec) (hget : dictGet hotels hid = some h)
    (hle : h.available_rooms ≤ h.total_rooms)
    (hpos : 0 < h.available_rooms)
    (hnotin : rid ∉ h.reservations) :
    (reserve_room hotels hid rid).1 = .success ∧
    (cancel_room_reservation (reserve_room hotels hid rid).2 hid rid).1 =
      true ∧
    dictGet
      (cancel_room_reservation (reserve_room hotels hid rid).2 hid rid).2
      hid = some h := by
  have hav : ¬ h.available_rooms ≤ 0 := by omega
  have e1 : reserve_room hotels hid rid =
      (ReserveOutcome.success, dictSet hotels hid
        { h with
          available_rooms := h.available_rooms - 1
          reservations := h.reservations ++ [rid] }) := by
    simp [reserve_room, hget, hav, hnotin]
  have hmem : rid ∈ h.reservations ++ [rid] := by simp
  have herase : (h.reservations ++ [rid]).erase rid = h.reservations := by
    rw [List.erase_append_right _ hnotin]
    simp
  have hmin : min (h.available_rooms - 1 + 1) h.total_rooms =
      h.available_rooms := by omega
  have hmin' : min h.available_rooms h.total_rooms = h.available_rooms :=
    min_eq_left hle
  refine ⟨by rw [e1], ?_, ?_⟩
  · rw [e1]
    simp [cancel_room_reservation, dictGet_dictSet, hmem]
  · rw [e1]
    simp [cancel_room_reservation, dictGet_dictSet, hmem, herase, hmin,
      hmin']

/-- A concrete store for the C3 witness: one hotel, one free room. -/
def c3Rec : HotelRec :=
  { hotel_id := "H1", name := "N", city := "C", total_rooms := 1,
    available_rooms := 1, reservations := [] }

theorem C3_reserve_release_round_trip_witness :
    dictGet
      (cancel_room_reservation (reserve_room [("H1", c3Rec)] "H1" "R1").2
        "H1" "R1").2 "H1" = some c3Rec :=
  (C3_reserve_release_round_trip [("H1", c3Rec)] "H1" "R1" c3Rec
    (by decide) (by decide) (by decide) (by decide)).2.2


/-- C2: for a reservation id not in the ledger, when the customer id
does not exist in the customer collection, `create_reservation` returns
the not-created sentinel (`none`) and the entire state — in particular
the target hotel's `available_rooms` and `reservations` — is
unchanged. -/
theorem C2_create_reservation_missing_customer (s : SysState)
    (rid cid hid : String) (ci co : Option String) (today : String)
    (hfresh : dictHas s.reservations rid = false)
    (hcust : Customer.exists s.customers cid = false) :
    (create_reservation s rid cid hid ci co today).1 = none ∧
    (create_reservation s rid cid hid ci co today).2 = s := by
  constructor <;> simp [create_reservation, hfresh, hcust]

/-- A concrete customer record shared by the witness states below. -/
def wCust : CustomerRec :=
  { customer_id := "C1", name := "A", email := "a@m", phone := "1" }

/-- A concrete state for the C2 witness: customer "C9" is absent. -/
def c2State : SysState :=
  { customers := [("C1", wCust)]
    hotels := [("H1", { hotel_id := "H1", name := "N", city := "C",
                        total_rooms := 2, available_rooms := 2,
                        reservations := [] })]
    reservations := [] }

theorem C2_create_reservation_missing_customer_witness :
    (create_reservation c2State "R1" "C9" "H1" none none "2026-02-01").1 =
      none ∧
    (create_reservation c2State "R1" "C9" "H1" none none "2026-02-01").2 =
      c2State :=
  C2_create_reservation_missing_customer c2State "R1" "C9" "H1" none none
    "2026-02-01" (by decide) (by decide)

/-- C5: cancelling an active ledger reservation twice: the first call
returns `True` and stores the record with status `CANCELED`; the second
call returns `False` and leaves the whole state — reservation status and
hotel store alike — unchanged, so `available_rooms` is not incremented a
second time. -/
theorem C5_cancel_twice (s : SysState) (rid : String) (r : ReservationRec)
    (hget : dictGet s.reservations rid = some r)
    (hact : r.status ≠ .canceled) :
    (cancel_reservation s rid).1 = true ∧
    dictGet (cancel_reservation s rid).2.reservations rid =
      some { r with status := .canceled } ∧
    (cancel_reservation (cancel_reservation s rid).2 rid).1 = false ∧
    (cancel_reservation (cancel_reservation s rid).2 rid).2 =
      (cancel_reservation s rid).2 := by
  have e1 : cancel_reservation s rid =
      (true, { s with
        hotels := (cancel_room_reservation s.hotels r.hotel_id rid).2
        reservations := dictSet s.reservations rid
          { r with status := .canceled } }) := by
    simp [cancel_reservation, hget, hact]
  have hget2 : dictGet (dictSet s.reservations rid
        { r with status := .canceled }) rid =
      some { r with status := .canceled } := by
    simp [dictGet_dictSet]
  have e2 : cancel_reservation (cancel_reservation s rid).2 rid =
      (false, (cancel_reservation s rid).2) := by
    rw [e1]
    simp [cancel_reservation, hget2]
  refine ⟨by rw [e1], ?_, by rw [e2], by rw [e2]⟩
  rw [e1]
  exact hget2

/-- A concrete reservation record for the C5/C7 witnesses. -/
def wRes (hid : String) : ReservationRec :=
  { reservation_id := "R1", customer_id := "C1", hotel_id := hid,
    check_in := "d1", check_out := "d2", status := .active }

/-- A concrete state for the C5 witness: one active reservation whose
hotel holds it. -/
def c5State : SysState :=
  { customers := [("C1", wCust)]
    hotels := [("H1", { hotel_id := "H1", name := "N", city := "C",
                        total_rooms := 2, available_rooms := 1,
                        reservations := ["R1"] })]
    reservations := [("R1", wRes "H1")] }

theorem C5_cancel_twice_witness :
    (cancel_reservation c5State "R1").1 = true ∧
    (cancel_reservation (cancel_reservation c5State "R1").2 "R1").1 =
      false :=
  ⟨(C5_cancel_twice c5State "R1" (wRes "H1") (by decide) (by decide)).1,
   (C5_cancel_twice c5State "R1" (wRes "H1") (by decide)
     (by decide)).2.2.1⟩

/-- C7: for any ledger reservation whose status is not `CANCELED`,
`cancel_reservation` returns `True` and stores the record with status
`CANCELED`, with no assumption on the hotel store — the room-release
call's outcome is ignored. -/
theorem C7_cancel_flips_status_regardless (s : SysState) (rid : String)
    (r : ReservationRec) (hget : dictGet s.reservations rid = some r)
    (hact : r.status ≠ .canceled) :
    (cancel_reservation s rid).1 = true ∧
    dictGet (cancel_reservation s rid).2.reservations rid =
      some { r with status := .canceled } := by
  simp [cancel_reservation, hget, hact, dictGet_dictSet]

/-- A concrete state for the C7 witness: the reservation's hotel does
not exist at all, so the release call fails, yet cancellation
succeeds. -/
def c7State : SysState :=
  { customers := []
    hotels := []
    reservations := [("R1", wRes "HGone")] }

theorem C7_cancel_flips_status_regardless_witness :
    (cancel_reservation c7State "R1").1 = true :=
  (C7_cancel_flips_status_regardless c7State "R1" (wRes "HGone")
    (by decide) (by decide)).1

/-- A hotel record violating `available_rooms ≤ total_rooms`, used to
refute C6 as literally stated. -/
def c6Rec : HotelRec :=
  { hotel_id := "H1", name := "N", city := "C", total_rooms := 2,
    available_rooms := 5, reservations := [] }

/-- C6 as stated is false: for the stored hotel `c6Rec` (with
`available_rooms = 5 > total_rooms = 2`), `modify_hotel` with
`total_rooms = 3` stores `available_rooms = max(0, 5 + (3-2)) = 6`,
whereas `clamp(5 + (3-2), 0, 3) = 3`: the code never clamps from
above. -/
theorem C6_counterexample_no_upper_clamp :
    dictGet (modify_hotel [("H1", c6Rec)] "H1" none none (some 3)).2
      "H1" = some { c6Rec with total_rooms := 3, available_rooms := 6 } ∧
    ¬ (6 : Int) =
      min (max (c6Rec.available_rooms + (3 - c6Rec.total_rooms)) 0) 3 := by
  decide

/-- C6 (amended): for every stored hotel satisfying
`available_rooms ≤ total_rooms` and every new total `t ≥ 0`,
`modify_hotel` sets `total_rooms := t` and
`available_rooms := clamp(available_rooms + (t - old_total), 0, t)`;
under these hypotheses the code's `max(0, available_rooms + diff)`
coincides with the clamp, so a shrink never produces a negative
availability and the result never exceeds the new total. -/
theorem C6_modify_clamps_under_invariant (hotels : Hotels) (hid : String)
    (h : HotelRec) (t : Int) (hget : dictGet hotels hid = some h)
    (hle : h.available_rooms ≤ h.total_rooms) (ht : 0 ≤ t) :
    (modify_hotel hotels hid none none (some t)).1 = true ∧
    dictGet (modify_hotel hotels hid none none (some t)).2 hid =
      some { h with
        total_rooms := t
        available_rooms :=
          min (max (h.available_rooms + (t - h.total_rooms)) 0) t } := by
  have e : max 0 (h.available_rooms + (t - h.total_rooms)) =
      min (max (h.available_rooms + (t - h.total_rooms)) 0) t := by
    omega
  constructor
  · simp [modify_hotel, hget]
  · simp only [modify_hotel, modifyText, hget, dictGet_dictSet, if_pos]
    rw [e]

/-- The 1-room hotel of the spec's shrink-to-zero scenario. -/
def c6wHotels : Hotels :=
  [("H1", { hotel_id := "H1", name := "N", city := "C", total_rooms := 1,
            available_rooms := 1, reservations := [] })]

theorem C6_modify_clamps_under_invariant_witness :
    dictGet (modify_hotel c6wHotels "H1" none none (some 0)).2 "H1" =
      some { hotel_id := "H1", name := "N", city := "C", total_rooms := 0,
             available_rooms := 0, reservations := [] } := by
  have hc := (C6_modify_clamps_under_invariant c6wHotels "H1"
    { hotel_id := "H1", name := "N", city := "C", total_rooms := 1,
      available_rooms := 1, reservations := [] } 0
    (by decide) (by decide) (by decide)).2
  simpa using hc

/-- The hotel record used to exhibit the C8 divergence. -/
def c8Rec : HotelRec :=
  { hotel_id := "H1", name := "Grand", city := "Cancun", total_rooms := 5,
    available_rooms := 5, reservations := [] }

/-- C8 (divergence evidence): `modify_hotel` on hotel "H1" with city
value "Tulum" stores a record whose `city` field is still "Cancun"; the
supplied value is written to a separate `location` key that no reader
(`from_dict`, `display_hotel`) ever consults. -/
theorem C8_city_field_not_updated :
    dictGet (modify_hotel [("H1", c8Rec)] "H1" none (some "Tulum")
      none).2 "H1" = some { c8Rec with location := some "Tulum" } ∧
    ({ c8Rec with location := some "Tulum" } : HotelRec).city =
      "Cancun" := by
  decide

/-- C9: `create_hotel` validates nothing about `total_rooms`: for every
integer `t`, creating a hotel under a fresh id succeeds, returns the
record, and stores it with `total_rooms = available_rooms = t` — so a
record violating `0 ≤ available_rooms ≤ total_rooms` is directly
creatable (take `t < 0`). -/
theorem C9_create_hotel_no_validation (hotels : Hotels)
    (hid nm ct : String) (t : Int) (hfresh : dictHas hotels hid = false) :
    (create_hotel hotels hid nm ct t).1 = some (Hotel.init hid nm ct t) ∧
    dictGet (create_hotel hotels hid nm ct t).2 hid =
      some (Hotel.init hid nm ct t) ∧
    (Hotel.init hid nm ct t).total_rooms = t ∧
    (Hotel.init hid nm ct t).available_rooms = t := by
  refine ⟨?_, ?_, rfl, rfl⟩ <;> simp [create_hotel, hfresh, dictGet_dictSet]

theorem C9_create_hotel_no_validation_witness :
    dictGet (create_hotel [] "H1" "N" "C" (-3)).2 "H1" =
      some (Hotel.init "H1" "N" "C" (-3)) ∧
    ¬ (0 ≤ (Hotel.init "H1" "N" "C" (-3)).available_rooms) :=
  ⟨(C9_create_hotel_no_validation [] "H1" "N" "C" (-3) (by decide)).2.1,
   by decide⟩

/-- C10: for existing records, an empty-string argument for a text
field of `modify_hotel` or `modify_customer` behaves exactly like an
omitted (`None`) argument — the stored field keeps its previous value —
and the call still returns the success signal `True` (with the store
unchanged when every supplied field is empty). -/
theorem C10_empty_string_treated_as_omitted (hotels : Hotels)
    (customers : Customers) (hid cid : String) (h : HotelRec)
    (c : CustomerRec) (loc nm em ph : Option String) (tot : Option Int)
    (hh : dictGet hotels hid = some h)
    (hc : dictGet customers cid = some c) :
    modify_hotel hotels hid (some "") loc tot =
      modify_hotel hotels hid none loc tot ∧
    modify_hotel hotels hid nm (some "") tot =
      modify_hotel hotels hid nm none tot ∧
    modify_customer customers cid (some "") em ph =
      modify_customer customers cid none em ph ∧
    modify_customer customers cid nm (some "") ph =
      modify_customer customers cid nm none ph ∧
    modify_customer customers cid nm em (some "") =
      modify_customer customers cid nm em none ∧
    modify_hotel hotels hid (some "") (some "") none = (true, hotels) ∧
    modify_customer customers cid (some "") (some "") (some "") =
      (true, customers) := by
  refine ⟨?_, ?_, ?_, ?_, ?_, ?_, ?_⟩
  · simp [modify_hotel, modifyText]
  · simp [modify_hotel, modifyText]
  · simp [modify_customer]
  · simp [modify_customer]
  · simp [modify_customer]
  · simp [modify_hotel, modifyText, hh, dictSet_self hotels hid h hh]
  · simp [modify_customer, hc, dictSet_self customers cid c hc]

/-- A concrete hotel record for the C10 witness. -/
def c10Rec : HotelRec :=
  { hotel_id := "H1", name := "Grand", city := "X", total_rooms := 3,
    available_rooms := 3, reservations := [] }

/-- A concrete customer record for the C10 witness. -/
def c10Cust : CustomerRec :=
  { customer_id := "C1", name := "A", email := "e", phone := "p" }

theorem C10_empty_string_treated_as_omitted_witness :
    modify_hotel [("H1", c10Rec)] "H1" (some "") (some "") none =
      (true, [("H1", c10Rec)]) ∧
    modify_customer [("C1", c10Cust)] "C1" (some "") (some "")
      (some "") = (true, [("C1", c10Cust)]) :=
  ⟨(C10_empty_string_treated_as_omitted [("H1", c10Rec)]
      [("C1", c10Cust)] "H1" "C1" c10Rec c10Cust none none none none
      none (by decide) (by decide)).2.2.2.2.2.1,
   (C10_empty_string_treated_as_omitted [("H1", c10Rec)]
      [("C1", c10Cust)] "H1" "C1" c10Rec c10Cust none none none none
      none (by decide) (by decide)).2.2.2.2.2.2⟩
